import Mathlib

/-!
Verification of the HospitalFlow simulation core (simulation.py, predictions.py,
utils.py) against its natural-language specification.

Python floats are modelled as exact rationals (ℚ), Python ints as ℤ, and
`random.uniform` / `random.randint` / `random.random` draws are passed in as
explicit parameters constrained by range hypotheses.  Calls into the external
`HospitalDB` collaborator only read or write persisted records; where such a
call can mutate the in-memory metric state (or fail), that is modelled
explicitly.
-/

namespace HospitalFlow

/-- Python `int()` applied to a float: truncation toward zero. -/
def pyInt (x : ℚ) : ℤ := if 0 ≤ x then ⌊x⌋ else -⌊-x⌋

/-- The mutable metric vector `self.state` of `HospitalSimulation`.
Fields hold the Python value types: floats for the percentage metrics,
ints for the count metrics (every write to a count metric in the source
goes through `int()` or integer arithmetic). -/
structure SimState where
  ed_load : ℚ
  waiting_count : ℤ
  beds_free : ℤ
  staff_load : ℚ
  rooms_free : ℤ
  or_load : ℚ
  transport_queue : ℤ
  inventory_risk_count : ℤ
  deriving Repr, DecidableEq

/-- The start values assigned in `HospitalSimulation.__init__`. -/
def initialState : SimState :=
  { ed_load := 65, waiting_count := 5, beds_free := 45, staff_load := 70,
    rooms_free := 12, or_load := 60, transport_queue := 3, inventory_risk_count := 1 }

/-- The invariant claimed by the spec: percentage metrics in [0,100],
count metrics non-negative (integrality is the ℤ field type). -/
def metricInvariant (s : SimState) : Prop :=
  0 ≤ s.ed_load ∧ s.ed_load ≤ 100 ∧
  0 ≤ s.staff_load ∧ s.staff_load ≤ 100 ∧
  0 ≤ s.or_load ∧ s.or_load ≤ 100 ∧
  0 ≤ s.waiting_count ∧ 0 ≤ s.beds_free ∧ 0 ≤ s.rooms_free ∧
  0 ≤ s.transport_queue ∧ 0 ≤ s.inventory_risk_count

instance (s : SimState) : Decidable (metricInvariant s) := by
  unfold metricInvariant; infer_instance

/-- Tageszeit-Faktor computed at the top of `HospitalSimulation.update`. -/
def timeFactor (hour : ℕ) : ℚ :=
  if 8 ≤ hour ∧ hour ≤ 12 then 1.2
  else if 14 ≤ hour ∧ hour ≤ 18 then 1.15
  else if 22 ≤ hour ∨ hour < 6 then 0.7
  else 0.9

/-- Wochentags-Faktor computed in `HospitalSimulation.update` (0 = Monday). -/
def weekdayFactor (weekday : ℕ) : ℚ :=
  if 5 ≤ weekday then 0.85 else 1.0

/-- The `random.uniform` draws consumed by `_update_normal_metrics`,
in the order the source makes them. -/
structure NormalDraws where
  ed_var : ℚ
  wait_var : ℚ
  beds_var : ℚ
  staff_var : ℚ
  rooms_var : ℚ
  or_var : ℚ
  transport_var : ℚ
  deriving Repr, DecidableEq

/-- The ranges of the `random.uniform` calls in `_update_normal_metrics`. -/
def NormalDraws.inRange (d : NormalDraws) : Prop :=
  -3 ≤ d.ed_var ∧ d.ed_var ≤ 3 ∧ -2 ≤ d.wait_var ∧ d.wait_var ≤ 2 ∧
  -3 ≤ d.beds_var ∧ d.beds_var ≤ 3 ∧ -5 ≤ d.staff_var ∧ d.staff_var ≤ 5 ∧
  -2 ≤ d.rooms_var ∧ d.rooms_var ≤ 2 ∧ -5 ≤ d.or_var ∧ d.or_var ≤ 5 ∧
  -1 ≤ d.transport_var ∧ d.transport_var ≤ 1

instance (d : NormalDraws) : Decidable d.inRange := by
  unfold NormalDraws.inRange; infer_instance

/-- `HospitalSimulation._update_normal_metrics`. -/
def updateNormalMetrics (tf wf : ℚ) (d : NormalDraws) (s : SimState) : SimState :=
  let base_factor := tf * wf
  let ed_load := max 20 (min 95 (60 * base_factor + d.ed_var))
  let ed_factor := ed_load / 100
  let waiting_count := max 0 (pyInt (3 + ed_factor * 15 + d.wait_var))
  let beds_factor := 1 - ed_factor * 0.3
  let beds_free := max 5 (pyInt (50 * beds_factor * base_factor + d.beds_var))
  let staff_load := max 40 (min 90 (ed_load * 0.9 + d.staff_var))
  let rooms_factor := (beds_free : ℚ) / 50
  let rooms_free := max 2 (pyInt (15 * rooms_factor + d.rooms_var))
  let or_load := max 30 (min 85 (55 * base_factor + d.or_var))
  let transport_factor := ed_factor * 0.7
  let transport_queue := max 0 (pyInt (2 + transport_factor * 8 + d.transport_var))
  { s with ed_load := ed_load, waiting_count := waiting_count, beds_free := beds_free,
           staff_load := staff_load, rooms_free := rooms_free, or_load := or_load,
           transport_queue := transport_queue }

inductive EventType where
  | surge
  | equipment_failure
  | staffing_shortage
  | manv
  deriving Repr, DecidableEq

/-- An entry of `self.active_events`.  `intensity` is `Option` because the
`equipment_failure` and `staffing_shortage` dicts carry no `intensity` key;
readers use `event.get('intensity', default)`. -/
structure ActiveEvent where
  type : EventType
  start_time : ℚ
  duration_minutes : ℤ
  intensity : Option ℚ
  affected_departments : List String
  description : String
  deriving Repr, DecidableEq

/-- The per-event effect application inside `_update_active_events`
(the branch taken for a non-expired event). -/
def applyEventEffect (e : ActiveEvent) (s : SimState) : SimState :=
  match e.type with
  | .surge =>
      let surge_factor := e.intensity.getD 1.5
      { s with ed_load := min 98 (s.ed_load * surge_factor),
               waiting_count := pyInt ((s.waiting_count : ℚ) * surge_factor),
               staff_load := min 95 (s.staff_load * 1.2) }
  | .equipment_failure =>
      let dept := e.affected_departments.headD "ER"
      if dept = "ER" then
        { s with ed_load := min 95 (s.ed_load * 1.15) }
      else if dept = "ICU" then
        { s with beds_free := max 0 (pyInt ((s.beds_free : ℚ) * 0.9)) }
      else s
  | .staffing_shortage =>
      { s with staff_load := min 95 (s.staff_load * 1.25),
               ed_load := min 95 (s.ed_load * 1.1) }
  | .manv =>
      let manv_factor := e.intensity.getD 2.5
      { s with ed_load := min 98 (s.ed_load * manv_factor),
               waiting_count := pyInt ((s.waiting_count : ℚ) * manv_factor),
               staff_load := min 95 (s.staff_load * 1.4),
               beds_free := max 0 (pyInt ((s.beds_free : ℚ) * 0.7)) }

/-- `remaining = event['duration_minutes'] - elapsed` with `now` and
`start_time` in minutes. -/
def eventRemaining (now : ℚ) (e : ActiveEvent) : ℚ :=
  (e.duration_minutes : ℚ) - (now - e.start_time)

/-- `HospitalSimulation._update_active_events`: apply effects of all events
whose remaining time is positive (in list order), then drop the expired ones
(the `events_to_remove` pass; the accompanying db end-time write does not
touch the metric state). -/
def updateActiveEvents (now : ℚ) (events : List ActiveEvent) (s : SimState) :
    List ActiveEvent × SimState :=
  let s2 := events.foldl
    (fun acc e => if eventRemaining now e ≤ 0 then acc else applyEventEffect e acc) s
  let kept := events.filter (fun e => decide (¬ eventRemaining now e ≤ 0))
  (kept, s2)

/-- The draws consumed by `_check_and_trigger_events` and the four
`_trigger_*` helpers, in source order. -/
structure TriggerDraws where
  surge_roll : Bool
  surge_duration : ℤ
  surge_intensity : ℚ
  eq_roll : Bool
  eq_duration : ℤ
  eq_dept : String
  staffing_roll : Bool
  staffing_duration : ℤ
  staffing_dept : String
  manv_roll : Bool
  manv_duration : ℤ
  manv_intensity : ℚ
  deriving Repr, DecidableEq

/-- The `random.randint` / `random.uniform` ranges of the four triggers. -/
def TriggerDraws.inRange (d : TriggerDraws) : Prop :=
  20 ≤ d.surge_duration ∧ d.surge_duration ≤ 60 ∧
  1.3 ≤ d.surge_intensity ∧ d.surge_intensity ≤ 1.8 ∧
  30 ≤ d.eq_duration ∧ d.eq_duration ≤ 120 ∧
  60 ≤ d.staffing_duration ∧ d.staffing_duration ≤ 180 ∧
  30 ≤ d.manv_duration ∧ d.manv_duration ≤ 90 ∧
  2 ≤ d.manv_intensity ∧ d.manv_intensity ≤ 3

instance (d : TriggerDraws) : Decidable d.inRange := by
  unfold TriggerDraws.inRange; infer_instance

/-- `HospitalSimulation._trigger_surge_event` (the appended dict). -/
def triggerSurgeEvent (now : ℚ) (d : TriggerDraws) : ActiveEvent :=
  { type := .surge, start_time := now, duration_minutes := d.surge_duration,
    intensity := some d.surge_intensity,
    affected_departments := ["ER", "ICU", "Surgery", "Cardiology"],
    description := "Auslastungsspitze" }

/-- `HospitalSimulation._trigger_equipment_failure` (the appended dict). -/
def triggerEquipmentFailure (now : ℚ) (d : TriggerDraws) : ActiveEvent :=
  { type := .equipment_failure, start_time := now, duration_minutes := d.eq_duration,
    intensity := none, affected_departments := [d.eq_dept],
    description := "Geräteausfall" }

/-- `HospitalSimulation._trigger_staffing_shortage` (the appended dict). -/
def triggerStaffingShortage (now : ℚ) (d : TriggerDraws) : ActiveEvent :=
  { type := .staffing_shortage, start_time := now, duration_minutes := d.staffing_duration,
    intensity := none, affected_departments := [d.staffing_dept],
    description := "Personalengpass" }

/-- `HospitalSimulation._trigger_manv_event` (the appended dict). -/
def triggerManvEvent (now : ℚ) (d : TriggerDraws) : ActiveEvent :=
  { type := .manv, start_time := now, duration_minutes := d.manv_duration,
    intensity := some d.manv_intensity, affected_departments := ["ER", "ICU", "Surgery"],
    description := "ManV - Massenanfall von Verletzten" }

/-- `HospitalSimulation._check_and_trigger_events`: `active_types` is computed
once up front; each event type is appended only when absent from it and its
Bernoulli roll succeeds. -/
def checkAndTriggerEvents (now : ℚ) (d : TriggerDraws) (events : List ActiveEvent) :
    List ActiveEvent :=
  let active_types := events.map ActiveEvent.type
  let events1 := if EventType.surge ∉ active_types ∧ d.surge_roll then
    events ++ [triggerSurgeEvent now d] else events
  let events2 := if EventType.equipment_failure ∉ active_types ∧ d.eq_roll then
    events1 ++ [triggerEquipmentFailure now d] else events1
  let events3 := if EventType.staffing_shortage ∉ active_types ∧ d.staffing_roll then
    events2 ++ [triggerStaffingShortage now d] else events2
  let events4 := if EventType.manv ∉ active_types ∧ d.manv_roll then
    events3 ++ [triggerManvEvent now d] else events3
  events4

/-- Number of active events of a given type. -/
def countType (events : List ActiveEvent) (t : EventType) : ℕ :=
  (events.filter (fun e => decide (e.type = t))).length

/-! ## Patient flow: arrivals, discharges, transports -/

/-- The draws of `_simulate_patient_arrivals`: `occurs` is the outcome of
`random.random() < arrival_probability`, `department` the weighted choice,
`ed_bump ~ uniform(1,3)`, `wait_bump ~ uniform(0.5,1.5)`, `admitted` the
outcome of `random.random() < 0.7`. -/
structure ArrivalDraws where
  occurs : Bool
  department : String
  ed_bump : ℚ
  wait_bump : ℚ
  admitted : Bool
  deriving Repr, DecidableEq

def ArrivalDraws.inRange (d : ArrivalDraws) : Prop :=
  1 ≤ d.ed_bump ∧ d.ed_bump ≤ 3 ∧ 0.5 ≤ d.wait_bump ∧ d.wait_bump ≤ 1.5

instance (d : ArrivalDraws) : Decidable d.inRange := by
  unfold ArrivalDraws.inRange; infer_instance

/-- `HospitalSimulation._simulate_patient_arrivals`. -/
def simulatePatientArrivals (d : ArrivalDraws) (s : SimState) : SimState :=
  if d.occurs then
    let s1 := if d.department = "ER" then
        { s with ed_load := min 95 (s.ed_load + d.ed_bump),
                 waiting_count := max 0 (pyInt ((s.waiting_count : ℚ) + d.wait_bump)) }
      else s
    if d.admitted then { s1 with beds_free := max 0 (s1.beds_free - 1) } else s1
  else s

/-- The draws of one `_simulate_patient_discharges` call: `er_roll` and
`other_roll` are the two independent night-time Bernoulli outcomes,
`day_roll` the single day-time one, the `dept` fields the
`random.choice` picks, `ed_drop ~ uniform(1,2)`. -/
structure DischargeDraws where
  er_roll : Bool
  other_roll : Bool
  other_dept : String
  day_roll : Bool
  day_dept : String
  ed_drop : ℚ
  deriving Repr, DecidableEq

def DischargeDraws.inRange (d : DischargeDraws) : Prop :=
  1 ≤ d.ed_drop ∧ d.ed_drop ≤ 2

instance (d : DischargeDraws) : Decidable d.inRange := by
  unfold DischargeDraws.inRange; infer_instance

/-- The department selection of `_simulate_patient_discharges`: the three
hour bands (night 20:00-06:00, morning 06:00-12:00, afternoon 12:00-20:00)
with their respective Bernoulli trials. -/
def dischargeDepartment (hour : ℕ) (d : DischargeDraws) : Option String :=
  if 20 ≤ hour ∨ hour < 6 then
    if d.er_roll then some "ER"
    else if d.other_roll then some d.other_dept
    else none
  else if 6 ≤ hour ∧ hour < 12 then
    if d.day_roll then some d.day_dept else none
  else
    if d.day_roll then some d.day_dept else none

/-- The state effect of a discharge in `_simulate_patient_discharges`:
one bed freed, and for ER a reduction of `ed_load` / `waiting_count`. -/
def dischargeApply (dept : String) (d : DischargeDraws) (s : SimState) : SimState :=
  let s1 := { s with beds_free := min 100 (s.beds_free + 1) }
  if dept = "ER" then
    { s1 with ed_load := max 20 (s1.ed_load - d.ed_drop),
              waiting_count := max 0 (s1.waiting_count - 1) }
  else s1

/-- `HospitalSimulation._simulate_patient_discharges` (one call); returns the
discharged department (for transport generation) and the new state. -/
def simulatePatientDischarge (hour : ℕ) (d : DischargeDraws) (s : SimState) :
    Option String × SimState :=
  match dischargeDepartment hour d with
  | none => (none, s)
  | some dept => (some dept, dischargeApply dept d s)

/-- `HospitalSimulation._generate_transports_for_discharges`: for each
discharged department an independent Bernoulli trial; on success (and a
successful `create_patient_transport` db write, both folded into one flag
here because a failed write skips the increment via the `except` clause)
the transport queue is bumped. -/
def generateTransports (depts : List String) (rolls : List Bool) (s : SimState) : SimState :=
  (depts.zip rolls).foldl
    (fun acc p => if p.2 then { acc with transport_queue := min 20 (acc.transport_queue + 1) }
                  else acc) s

/-- `HospitalSimulation.apply_recommendation_effect` (the `rec_type` and
`duration_minutes` arguments are unused by the state update). -/
def applyRecommendationEffect (effect_name : String) (s : SimState) : SimState :=
  if effect_name = "staffing_reassignment" then
    { s with ed_load := max 20 (s.ed_load - 8),
             waiting_count := max 0 (s.waiting_count - 2),
             staff_load := min 95 (s.staff_load + 5) }
  else if effect_name = "open_overflow_beds" then
    { s with beds_free := s.beds_free + 3,
             ed_load := max 20 (s.ed_load - 5) }
  else if effect_name = "room_allocation" then
    { s with rooms_free := s.rooms_free + 2 }
  else s

/-! ## The tick (`HospitalSimulation.update`) -/

/-- All randomness and clock inputs consumed by one `update()` call, in the
order the source draws them. -/
structure TickInputs where
  hour : ℕ
  weekday : ℕ
  now : ℚ
  normal : NormalDraws
  arrival : ArrivalDraws
  discharge1 : DischargeDraws
  discharge2 : DischargeDraws
  discharge3 : DischargeDraws
  transport_rolls : List Bool
  demo_mode : Bool
  trigger : TriggerDraws
  deriving Repr, DecidableEq

def TickInputs.inRange (inp : TickInputs) : Prop :=
  inp.normal.inRange ∧ inp.arrival.inRange ∧ inp.discharge1.inRange ∧
  inp.discharge2.inRange ∧ inp.discharge3.inRange ∧ inp.trigger.inRange

instance (inp : TickInputs) : Decidable inp.inRange := by
  unfold TickInputs.inRange; infer_instance

/-- The metric-state-relevant body of `HospitalSimulation.update`: normal
metric update, arrival simulation, three discharge attempts, transport
generation, event triggering (demo mode only) and active-event effects.
`_simulate_operation_material_consumption`, `_save_metrics_to_db`,
`_generate_alerts`, `_check_and_activate_planned_transports` and
`_update_history` touch only the db and the history buffer, never
`self.state`. -/
def updateTick (inp : TickInputs) (events : List ActiveEvent) (s : SimState) :
    List ActiveEvent × SimState :=
  let tf := timeFactor inp.hour
  let wf := weekdayFactor inp.weekday
  let s1 := updateNormalMetrics tf wf inp.normal s
  let s2 := simulatePatientArrivals inp.arrival s1
  let r3 := simulatePatientDischarge inp.hour inp.discharge1 s2
  let r4 := simulatePatientDischarge inp.hour inp.discharge2 r3.2
  let r5 := simulatePatientDischarge inp.hour inp.discharge3 r4.2
  let discharged := [r3.1, r4.1, r5.1].filterMap id
  let s6 := generateTransports discharged inp.transport_rolls r5.2
  let events1 := if inp.demo_mode then checkAndTriggerEvents inp.now inp.trigger events
                 else events
  updateActiveEvents inp.now events1 s6

/-- The intensities every event dict obtains from `event.get('intensity', _)`
are at least 1: surge draws from [1.3, 1.8], manv from [2.0, 3.0], and the
defaults 1.5 / 2.5 apply otherwise. -/
def EventsWF (events : List ActiveEvent) : Prop :=
  ∀ e ∈ events, 1 ≤ e.intensity.getD 1.5 ∧ 1 ≤ e.intensity.getD 2.5

instance (events : List ActiveEvent) : Decidable (EventsWF events) := by
  unfold EventsWF; infer_instance

/-! ## Invariant preservation lemmas -/

/-- The tighter band the code actually keeps `ed_load` in. -/
def edBand (s : SimState) : Prop := 20 ≤ s.ed_load ∧ s.ed_load ≤ 98

instance (s : SimState) : Decidable (edBand s) := by
  unfold edBand; infer_instance

/-! ## Demo-mode toggling -/

/-- The demo-mode-relevant part of a `HospitalSimulation` instance. -/
structure SimSession where
  demo_mode : Bool
  state : SimState
  active_events : List ActiveEvent
  deriving Repr, DecidableEq

/-- `HospitalSimulation.set_demo_mode`. -/
def setDemoMode (demo_mode : Bool) (sess : SimSession) : SimSession :=
  let old_mode := sess.demo_mode
  let sess1 := { sess with demo_mode := demo_mode }
  if old_mode ∧ ¬ demo_mode then { sess1 with active_events := [] } else sess1

/-! ## Failure model of `update` (`_save_metrics_to_db` may raise) -/

/-- One call of `HospitalSimulation.update` with the db write batch in
`_save_metrics_to_db` possibly raising.  Every mutation of `self.state` and
`self.active_events` happens before that call in the source (the remaining
steps `_generate_alerts`, `_check_and_activate_planned_transports` and
`_update_history` never touch `self.state`), so on an exception the mutated
state remains in place.  The second component is the exception propagating
out of `update`, `none` on normal return. -/
def updateCall (inp : TickInputs) (saveFails : Bool) (events : List ActiveEvent)
    (s : SimState) : (List ActiveEvent × SimState) × Option String :=
  let r := updateTick inp events s
  if saveFails then (r, some "Fehler in Simulation-Update") else (r, none)

/-- The body of one `_update_loop` iteration: `try: self.update() ...
except Exception as e: print(...)` — the exception is swallowed and
the state stays as `update` left it. -/
def updateLoopBody (inp : TickInputs) (saveFails : Bool) (events : List ActiveEvent)
    (s : SimState) : List ActiveEvent × SimState :=
  (updateCall inp saveFails events s).1

/-- The atomicity property C4 asserts: a tick that raises leaves the
state exactly as it was before the tick began. -/
def tickAtomicityClaim : Prop :=
  ∀ (inp : TickInputs) (saveFails : Bool) (events : List ActiveEvent) (s : SimState),
    (updateCall inp saveFails events s).2 ≠ none →
    (updateCall inp saveFails events s).1 = (events, s)

/-! ## Spec-side decay model for C3 -/

/-- Modelled from the spec: the effect magnitude the spec claims is applied
each tick, `intensity * decay` with `decay = max(0, 1 - elapsed/duration)`. -/
def specDecayedFactor (e : ActiveEvent) (now : ℚ) : ℚ :=
  e.intensity.getD 1.5 * max 0 (1 - (now - e.start_time) / (e.duration_minutes : ℚ))

/-- The linear-decay property C3 asserts, stated for a surge event acting
on `ed_load`. -/
def specLinearDecayClaim : Prop :=
  ∀ (s : SimState) (e : ActiveEvent) (now : ℚ),
    e.type = EventType.surge →
    0 ≤ now - e.start_time → now - e.start_time < (e.duration_minutes : ℚ) →
    ((updateActiveEvents now [e] s).2).ed_load = min 98 (s.ed_load * specDecayedFactor e now)

/-! ## Sample inputs for concrete instantiations -/

/-- A concrete quiet tick input: 10:00 on a Wednesday, no arrival, no
discharges, demo mode off, all uniform draws mid-range. -/
def tickInputs0 : TickInputs :=
  { hour := 10, weekday := 2, now := 0,
    normal := ⟨0, 0, 0, 0, 0, 0, 0⟩,
    arrival := ⟨false, "ER", 2, 1, false⟩,
    discharge1 := ⟨false, false, "ICU", false, "ER", 1.5⟩,
    discharge2 := ⟨false, false, "ICU", false, "ER", 1.5⟩,
    discharge3 := ⟨false, false, "ICU", false, "ER", 1.5⟩,
    transport_rolls := [],
    demo_mode := false,
    trigger := ⟨false, 30, 1.5, false, 60, "ER", false, 90, "ICU", false, 60, 2.5⟩ }

/-- A concrete active surge event: started at minute 0, 40 minutes long,
intensity 1.5. -/
def surgeEvent0 : ActiveEvent :=
  { type := EventType.surge, start_time := 0, duration_minutes := 40,
    intensity := some (3/2), affected_departments := ["ER", "ICU", "Surgery", "Cardiology"],
    description := "Auslastungsspitze" }

/-- Concrete trigger draws with every Bernoulli roll successful. -/
def triggerDrawsW : TriggerDraws :=
  ⟨true, 30, 1.5, true, 60, "ER", true, 90, "ICU", true, 60, 2.5⟩

/-! ## Prediction engine (predictions.py) -/

/-- A row of `db.get_capacity_overview()`; dict keys read with `.get` are
`Option`-valued. -/
structure CapacityEntry where
  department : String
  utilization_percent : Option ℚ
  total_beds : Option ℚ
  deriving Repr, DecidableEq

/-- A row of `db.get_metrics_last_n_minutes`. -/
structure MetricSample where
  metric_type : String
  value : ℚ
  deriving Repr, DecidableEq

/-- The db reads the prediction engine performs: capacity overview, metrics
of the last 60 minutes, metrics of the last 120 minutes. -/
structure PredDB where
  capacity : List CapacityEntry
  history60 : List MetricSample
  history120 : List MetricSample
  deriving Repr, DecidableEq

inductive PredictionType where
  | patient_arrival
  | bed_demand
  deriving Repr, DecidableEq

structure Prediction where
  prediction_type : PredictionType
  predicted_value : ℚ
  confidence : ℚ
  time_horizon_minutes : ℚ
  department : String
  model_version : String
  deriving Repr, DecidableEq

/-- Python slice `l[-n:]`. -/
def lastN (n : ℕ) (l : List α) : List α := l.drop (l.length - n)

/-- The time-of-day factor in `predict_patient_arrival` (constants differ
from the simulation's: 1.3 / 1.2 / 0.6 / 0.9). -/
def predTimeFactor (hour : ℕ) : ℚ :=
  if 8 ≤ hour ∧ hour ≤ 12 then 1.3
  else if 14 ≤ hour ∧ hour ≤ 18 then 1.2
  else if 22 ≤ hour ∨ hour < 6 then 0.6
  else 0.9

/-- `PredictionEngine.predict_patient_arrival`. -/
def predictPatientArrival (db : PredDB) (hour weekday : ℕ) (time_horizon_minutes : ℚ)
    (department : String) : Prediction :=
  let patient_history := db.history60.filter (fun m => m.metric_type == "waiting_count")
  let pc : ℚ × ℚ :=
    if 3 ≤ patient_history.length then
      let recent_values := (lastN 12 patient_history).map MetricSample.value
      let moving_avg := recent_values.sum / (recent_values.length : ℚ)
      let trend := if 2 ≤ recent_values.length then
          (recent_values.getLastD 0 - recent_values.headD 0) / (recent_values.length : ℚ)
        else 0
      let base_prediction := moving_avg + trend * (time_horizon_minutes / 5)
      let predicted_value := base_prediction * predTimeFactor hour * weekdayFactor weekday
      let confidence0 := min 0.95 (0.6 + ((patient_history.length : ℚ) / 20) * 0.35)
      let confidence := confidence0 * (1 - (time_horizon_minutes / 60) * 0.2)
      (predicted_value, confidence)
    else (5, 0.5)
  { prediction_type := PredictionType.patient_arrival,
    predicted_value := ((max 0 (pyInt pc.1) : ℤ) : ℚ),
    confidence := max 0.3 pc.2,
    time_horizon_minutes := time_horizon_minutes,
    department := department,
    model_version := "v1.0-statistical" }

/-- `PredictionEngine.predict_bed_demand`. -/
def predictBedDemand (db : PredDB) (time_horizon_minutes : ℚ) (department : String) :
    Prediction :=
  match db.capacity.find? (fun c => c.department == department) with
  | none =>
      { prediction_type := PredictionType.bed_demand, predicted_value := 75,
        confidence := 0.5, time_horizon_minutes := time_horizon_minutes,
        department := department, model_version := "v1.0-statistical" }
  | some dept_capacity =>
      let current_utilization := dept_capacity.utilization_percent.getD 75
      let bed_history := db.history120.filter (fun m => m.metric_type == "beds_free")
      let pc : ℚ × ℚ :=
        if 3 ≤ bed_history.length then
          let recent_beds := (lastN 24 bed_history).map MetricSample.value
          let bed_trend := if 1 < recent_beds.length then
              (recent_beds.getLastD 0 - recent_beds.headD 0) / (recent_beds.length : ℚ)
            else 0
          let total_beds := dept_capacity.total_beds.getD 20
          let current_free := if ¬ recent_beds.isEmpty then recent_beds.getLastD 0
                              else total_beds * 0.25
          let current_occupied := total_beds - current_free
          let minutes_factor := time_horizon_minutes / 60
          let predicted_occupied := current_occupied + bed_trend * minutes_factor * (-1)
          let predicted_utilization := if 0 < total_beds
            then (predicted_occupied / total_beds) * 100 else current_utilization
          let predicted_utilization2 := max 10 (min 98 predicted_utilization)
          let confidence0 := min 0.9 (0.5 + ((bed_history.length : ℚ) / 30) * 0.4)
          let confidence := confidence0 * (1 - (time_horizon_minutes / 120) * 0.15)
          (predicted_utilization2, confidence)
        else (current_utilization, 0.5)
      { prediction_type := PredictionType.bed_demand, predicted_value := pc.1,
        confidence := max 0.3 pc.2, time_horizon_minutes := time_horizon_minutes,
        department := department, model_version := "v1.0-statistical" }

/-- The fallback department list used when the capacity source yields none. -/
def defaultDepartments : List String :=
  ["ER", "ICU", "Surgery", "Cardiology", "General Ward",
   "Orthopedics", "Urology", "Gastroenterology", "Geriatrics"]

/-- `[c['department'] for c in capacity_data if c.get('department')]`,
falling back to the default list when empty. -/
def availableDepartments (db : PredDB) : List String :=
  let capacity_depts := (db.capacity.filter (fun c => c.department ≠ "")).map
    CapacityEntry.department
  if capacity_depts.isEmpty then defaultDepartments else capacity_depts

/-- The `while len(..) < 2 and remaining:` fill loop of
`generate_predictions` (pops from the front of `remaining`). -/
def fillTwoFrom (sel : List String) (remaining : List String) : List String :=
  match remaining with
  | [] => sel
  | d :: rest => if sel.length < 2 then fillTwoFrom (sel ++ [d]) rest else sel

/-- The shared `if len(..) < 2:` fallback tail of both department
selections: prepend `first_fb` when missing, then append `second_fb` if
still short. -/
def ensureTwo (first_fb second_fb : String) (sel : List String) : List String :=
  let d3 := if sel.length < 2 then
      (if ¬ sel.contains first_fb then first_fb :: sel else sel)
    else sel
  if d3.length < 2 then d3 ++ [second_fb] else d3

/-- The department selection for patient-arrival predictions in
`generate_predictions`: ER first, then the priority list, then remaining
departments, then the ER fallbacks. -/
def patientArrivalDepts (all_departments : List String) : List String :=
  let d0 := if all_departments.contains "ER" then ["ER"] else []
  let priority_for_arrival := ["ICU", "Surgery", "Cardiology", "General Ward"]
  let d1 := priority_for_arrival.foldl
    (fun acc dept =>
      if all_departments.contains dept ∧ ¬ acc.contains dept ∧ acc.length < 2
      then acc ++ [dept] else acc) d0
  let remaining := all_departments.filter (fun dept => ¬ d1.contains dept)
  ensureTwo "ER" "ER" (fillTwoFrom d1 remaining)

/-- The department selection for bed-demand predictions in
`generate_predictions`: the ICU/ER-headed priority list, then remaining
departments, then the ICU/ER fallbacks. -/
def bedDemandDepts (all_departments : List String) : List String :=
  let priority_depts := ["ICU", "ER", "Surgery", "Cardiology", "General Ward"]
  let d1 := priority_depts.foldl
    (fun acc dept =>
      if all_departments.contains dept ∧ acc.length < 2 then acc ++ [dept] else acc) []
  let remaining := all_departments.filter (fun dept => ¬ d1.contains dept)
  ensureTwo "ICU" "ER" (fillTwoFrom d1 remaining)

def countPredType (preds : List Prediction) (t : PredictionType) : ℕ :=
  (preds.filter (fun p => decide (p.prediction_type = t))).length

/-- The `while len(predictions) < 12:` padding loop of
`generate_predictions`.  `getD`/`headD` stand for Python's indexing
`time_horizons[k % len(time_horizons)]` and `depts[0]`; for the
provably-nonempty department selections and nonempty horizon lists the
defaults are unreachable (Python raises on an empty horizon list here). -/
def padPredictions (db : PredDB) (hour weekday : ℕ) (time_horizons : List ℚ)
    (paDepts bdDepts : List String) (preds : List Prediction) : List Prediction :=
  if _h12 : preds.length < 12 then
    if countPredType preds PredictionType.patient_arrival < 6 then
      let n := countPredType preds PredictionType.patient_arrival
      padPredictions db hour weekday time_horizons paDepts bdDepts
        (preds ++ [predictPatientArrival db hour weekday
          (time_horizons.getD (n % time_horizons.length) 0) (paDepts.headD "ER")])
    else if countPredType preds PredictionType.bed_demand < 6 then
      let n := countPredType preds PredictionType.bed_demand
      padPredictions db hour weekday time_horizons paDepts bdDepts
        (preds ++ [predictBedDemand db
          (time_horizons.getD (n % time_horizons.length) 0) (bdDepts.headD "ICU")])
    else preds
  else preds
termination_by 12 - preds.length
decreasing_by
  · simp only [List.length_append, List.length_cons, List.length_nil]
    omega
  · simp only [List.length_append, List.length_cons, List.length_nil]
    omega

/-- `PredictionEngine.generate_predictions` (the `_save_predictions` call
only persists the returned list). -/
def generatePredictions (db : PredDB) (hour weekday : ℕ) (time_horizons : List ℚ) :
    List Prediction :=
  let all_departments := availableDepartments db
  let pa := patientArrivalDepts all_departments
  let bd := bedDemandDepts all_departments
  let pa_preds := (pa.take 2).flatMap (fun dept =>
    (time_horizons.filter (fun h => decide (h ≤ 15))).map
      (fun h => predictPatientArrival db hour weekday h dept))
  let bd_preds := (bd.take 2).flatMap (fun dept =>
    (time_horizons.filter (fun h => decide (h ≤ 15))).map
      (fun h => predictBedDemand db h dept))
  padPredictions db hour weekday time_horizons pa bd (pa_preds ++ bd_preds)

/-- A db whose capacity overview and metric history are empty. -/
def predDB0 : PredDB := ⟨[], [], []⟩

/-! ## Operation generation and material consumption (C9) -/

/-- A row of `db.get_inventory_status()` (the fields the simulation uses). -/
structure InventoryItem where
  id : ℤ
  department : String
  deriving Repr, DecidableEq

/-- The operation record handed to `db.create_operation`. -/
structure OperationRec where
  op_type : String
  department : String
  status : String
  duration_minutes : ℤ
  deriving Repr, DecidableEq

/-- One `db.update_inventory_consumption(item['id'], consumption_amount, _)`
call. -/
structure ConsumptionRec where
  item_id : ℤ
  amount : ℤ
  deriving Repr, DecidableEq

/-- The department → procedure-list table in
`_simulate_operation_material_consumption`. -/
def opDepartments : List (String × List String) :=
  [("Surgery", ["Herz-OP", "Bauch-OP", "Gefäß-OP", "Thorax-OP"]),
   ("Cardiology", ["Herzkatheter", "Angioplastie", "Schrittmacher-Implantation"]),
   ("Orthopedics", ["Knie-OP", "Hüft-OP", "Schulter-OP"]),
   ("Urology", ["Prostata-OP", "Nieren-OP", "Blasen-OP"]),
   ("Gastroenterology", ["Endoskopie", "Koloskopie", "Laparoskopie"]),
   ("SpineCenter", ["Wirbelsäulen-OP", "Bandscheiben-OP"])]

/-- The draws of `_simulate_operation_material_consumption`, in source
order: the Bernoulli trial against `(or_load/100)*0.3`, the two
`random.choice` picks (by index), `duration ~ randint(30, 240)`,
`num_items ~ randint(1, min(3, len(department_items)))`, the
`random.sample` result, and the `randint(1, 5)` amount per item. -/
structure OpDraws where
  op_roll : Bool
  dept_idx : ℕ
  type_idx : ℕ
  duration : ℤ
  num_items : ℕ
  item_sample : List InventoryItem
  amounts : List ℤ
  deriving Repr, DecidableEq

/-- The department the dept-choice draw picks. -/
def opChosenDepartment (d : OpDraws) : String :=
  (opDepartments.getD (d.dept_idx % opDepartments.length) ("Surgery", [])).1

/-- The ranges of the draws, relative to the inventory filtered to the
chosen department. -/
def OpDraws.inRange (d : OpDraws) (inventory : List InventoryItem) : Prop :=
  30 ≤ d.duration ∧ d.duration ≤ 240 ∧
  (let department_items := inventory.filter
    (fun it => it.department == opChosenDepartment d)
   (¬ department_items.isEmpty →
      1 ≤ d.num_items ∧ d.num_items ≤ min 3 department_items.length ∧
      d.item_sample.length = d.num_items ∧
      ∀ it ∈ d.item_sample, it ∈ department_items) ∧
   d.amounts.length = d.item_sample.length ∧
   ∀ a ∈ d.amounts, 1 ≤ a ∧ a ≤ 5)

instance (d : OpDraws) (inventory : List InventoryItem) :
    Decidable (d.inRange inventory) := by
  unfold OpDraws.inRange
  infer_instance

/-- `HospitalSimulation._simulate_operation_material_consumption`: returns
the created operation record and the inventory consumption writes (both db
effects), or `none` when no operation happens this cycle. -/
def simulateOperationMaterialConsumption (or_load : ℚ) (inventory : List InventoryItem)
    (d : OpDraws) : Option (OperationRec × List ConsumptionRec) :=
  if 40 < or_load ∧ d.op_roll then
    let pair := opDepartments.getD (d.dept_idx % opDepartments.length) ("Surgery", [])
    let department := pair.1
    let op_type := pair.2.getD (d.type_idx % pair.2.length) ""
    let record : OperationRec := ⟨op_type, department, "completed", d.duration⟩
    let department_items := inventory.filter (fun it => it.department == department)
    if ¬ department_items.isEmpty then
      some (record, (d.item_sample.zip d.amounts).map (fun p => ⟨p.1.id, p.2⟩))
    else
      some (record, [])
  else none

/-- Modelled from the spec: the four procedure-keyword duration buckets
(20–60 / 45–90 / 90–180 / 30–120 minutes). -/
def specDurationBucket (dur : ℤ) : Prop :=
  (20 ≤ dur ∧ dur ≤ 60) ∨ (45 ≤ dur ∧ dur ≤ 90) ∨
  (90 ≤ dur ∧ dur ≤ 180) ∨ (30 ≤ dur ∧ dur ≤ 120)

/-- The bucketed-duration property C9 asserts. -/
def specOperationDurationClaim : Prop :=
  ∀ (or_load : ℚ) (inventory : List InventoryItem) (d : OpDraws),
    d.inRange inventory →
    ∀ rec cons,
      simulateOperationMaterialConsumption or_load inventory d = some (rec, cons) →
      specDurationBucket rec.duration_minutes

/-- Concrete operation draws: pick Surgery / Herz-OP, duration 240, no
items sampled. -/
def opDrawsW : OpDraws := ⟨true, 0, 0, 240, 0, [], []⟩

/-- A concrete inventory: two Surgery items. -/
def invW : List InventoryItem := [⟨1, "Surgery"⟩, ⟨2, "Surgery"⟩]

/-- Concrete operation draws: Surgery / Herz-OP, duration 100, both items
sampled, 3 and 4 units consumed. -/
def opDrawsW2 : OpDraws := ⟨true, 0, 0, 100, 2, [⟨1, "Surgery"⟩, ⟨2, "Surgery"⟩], [3, 4]⟩

def opRecW : OperationRec := ⟨"Herz-OP", "Surgery", "completed", 100⟩

def opConsW : List ConsumptionRec := [⟨1, 3⟩, ⟨2, 4⟩]

/-! ## Timestamp parsing (`utils.format_time_ago`) -/

/-- A Python `datetime`: date/time fields plus `tzinfo`, modelled as the
UTC offset in minutes; `none` is a naive datetime. -/
structure PyDateTime where
  year : ℤ
  month : ℕ
  day : ℕ
  hour : ℕ
  minute : ℕ
  second : ℕ
  microsecond : ℕ
  utcoffset_minutes : Option ℤ
  deriving Repr, DecidableEq

def isLeapYear (y : ℤ) : Bool :=
  (y % 4 == 0 && y % 100 != 0) || y % 400 == 0

def daysInMonth (y : ℤ) (m : ℕ) : ℕ :=
  if m = 2 then (if isLeapYear y then 29 else 28)
  else if m = 4 ∨ m = 6 ∨ m = 9 ∨ m = 11 then 30
  else 31

/-- Parse exactly `n` decimal digits, returning the value and the rest. -/
def parseDigitsExact (n : ℕ) (cs : List Char) : Option (ℕ × List Char) :=
  go n 0 cs
where
  go : ℕ → ℕ → List Char → Option (ℕ × List Char)
    | 0, acc, rest => some (acc, rest)
    | _ + 1, _, [] => none
    | k + 1, acc, c :: rest =>
        if c.isDigit then go k (acc * 10 + (c.toNat - 48)) rest else none

/-- Parse 1 to `n` decimal digits. -/
def parseDigitsUpTo (n : ℕ) (cs : List Char) : Option (ℕ × ℕ × List Char) :=
  match cs with
  | [] => none
  | c :: _ =>
      if c.isDigit then some (go n 0 0 cs) else none
where
  go : ℕ → ℕ → ℕ → List Char → ℕ × ℕ × List Char
    | 0, acc, k, rest => (acc, k, rest)
    | _ + 1, acc, k, [] => (acc, k, [])
    | fuel + 1, acc, k, c :: rest =>
        if c.isDigit then go fuel (acc * 10 + (c.toNat - 48)) (k + 1) rest
        else (acc, k, c :: rest)

def expectChar (c : Char) : List Char → Option (List Char)
  | [] => none
  | x :: xs => if x = c then some xs else none

/-- The fraction part `.fff` / `.ffffff` accepted by
`datetime.fromisoformat` (value in microseconds). -/
def parseFraction (cs : List Char) : Option (ℕ × List Char) :=
  match cs with
  | '.' :: rest =>
      match parseDigitsExact 6 rest with
      | some (v, rest2) => some (v, rest2)
      | none =>
          match parseDigitsExact 3 rest with
          | some (v, rest2) => some (v * 1000, rest2)
          | none => none
  | _ => none

/-- The time part `HH[:MM[:SS[.ffffff]]]` accepted by
`datetime.fromisoformat`, with the datetime range validation. -/
def parseIsoTime (cs : List Char) : Option (ℕ × ℕ × ℕ × ℕ × List Char) := do
  let (hh, cs1) ← parseDigitsExact 2 cs
  if 24 ≤ hh then none
  else
    match expectChar ':' cs1 with
    | none => some (hh, 0, 0, 0, cs1)
    | some cs2 => do
        let (mm, cs3) ← parseDigitsExact 2 cs2
        if 60 ≤ mm then none
        else
          match expectChar ':' cs3 with
          | none => some (hh, mm, 0, 0, cs3)
          | some cs4 => do
              let (ss, cs5) ← parseDigitsExact 2 cs4
              if 60 ≤ ss then none
              else
                match parseFraction cs5 with
                | some (us, cs6) => some (hh, mm, ss, us, cs6)
                | none => some (hh, mm, ss, 0, cs5)

/-- The UTC-offset tail `±HH:MM` accepted by `datetime.fromisoformat`
(offset in minutes; `none` when absent). -/
def parseIsoOffset (cs : List Char) : Option (Option ℤ × List Char) :=
  match cs with
  | [] => some (none, [])
  | c :: rest =>
      if c = '+' ∨ c = '-' then
        match parseDigitsExact 2 rest with
        | none => none
        | some (oh, cs1) =>
            match expectChar ':' cs1 with
            | none => none
            | some cs2 =>
                match parseDigitsExact 2 cs2 with
                | none => none
                | some (om, cs3) =>
                    if 24 ≤ oh ∨ 60 ≤ om then none
                    else
                      let total : ℤ := oh * 60 + om
                      some (some (if c = '-' then -total else total), cs3)
      else none

/-- `datetime.fromisoformat` on `YYYY-MM-DD[<sep>HH[:MM[:SS[.ffffff]]][±HH:MM]]`
(the subset of the accepted grammar that the stored timestamps use; with a
timezone offset the result is aware). -/
def fromisoformatL (cs : List Char) : Option PyDateTime := do
  let (y, cs1) ← parseDigitsExact 4 cs
  let cs2 ← expectChar '-' cs1
  let (mo, cs3) ← parseDigitsExact 2 cs2
  let cs4 ← expectChar '-' cs3
  let (da, cs5) ← parseDigitsExact 2 cs4
  if mo < 1 ∨ 12 < mo then none
  else if da < 1 ∨ daysInMonth (y : ℤ) mo < da then none
  else
    match cs5 with
    | [] => some ⟨(y : ℤ), mo, da, 0, 0, 0, 0, none⟩
    | _sep :: cs6 => do
        let (hh, mm, ss, us, cs7) ← parseIsoTime cs6
        let (off, cs8) ← parseIsoOffset cs7
        if cs8.isEmpty then some ⟨(y : ℤ), mo, da, hh, mm, ss, us, off⟩ else none

/-- `timestamp.replace('Z', '+00:00')` on the character list. -/
def replaceZ : List Char → List Char
  | [] => []
  | 'Z' :: rest => '+' :: '0' :: '0' :: ':' :: '0' :: '0' :: replaceZ rest
  | c :: rest => c :: replaceZ rest

/-- The shared `%Y-%m-%d %H:%M:%S` part of the two strptime patterns
(each numeric directive accepts 1 to its maximal number of digits;
the result is always naive). -/
def strptimeBase (cs : List Char) : Option (ℤ × ℕ × ℕ × ℕ × ℕ × ℕ × List Char) := do
  let (y, _, cs1) ← parseDigitsUpTo 4 cs
  let cs2 ← expectChar '-' cs1
  let (mo, _, cs3) ← parseDigitsUpTo 2 cs2
  let cs4 ← expectChar '-' cs3
  let (da, _, cs5) ← parseDigitsUpTo 2 cs4
  let cs6 ← expectChar ' ' cs5
  let (hh, _, cs7) ← parseDigitsUpTo 2 cs6
  let cs8 ← expectChar ':' cs7
  let (mm, _, cs9) ← parseDigitsUpTo 2 cs8
  let cs10 ← expectChar ':' cs9
  let (ss, _, cs11) ← parseDigitsUpTo 2 cs10
  if mo < 1 ∨ 12 < mo ∨ da < 1 ∨ daysInMonth (y : ℤ) mo < da ∨ 23 < hh ∨ 59 < mm ∨ 59 < ss
  then none
  else some ((y : ℤ), mo, da, hh, mm, ss, cs11)

/-- `datetime.strptime(timestamp, '%Y-%m-%d %H:%M:%S.%f')`. -/
def strptimeMicro (cs : List Char) : Option PyDateTime := do
  let (y, mo, da, hh, mm, ss, rest) ← strptimeBase cs
  match rest with
  | '.' :: rest2 => do
      let (f, k, rest3) ← parseDigitsUpTo 6 rest2
      if rest3.isEmpty then some ⟨y, mo, da, hh, mm, ss, f * 10 ^ (6 - k), none⟩
      else none
  | _ => none

/-- `datetime.strptime(timestamp, '%Y-%m-%d %H:%M:%S')`. -/
def strptimeSeconds (cs : List Char) : Option PyDateTime := do
  let (y, mo, da, hh, mm, ss, rest) ← strptimeBase cs
  if rest.isEmpty then some ⟨y, mo, da, hh, mm, ss, 0, none⟩ else none

/-- Days since the Unix epoch of a civil date (the standard
days-from-civil computation, matching `datetime.date.toordinal`
shifted to the epoch). -/
def daysFromCivil (y : ℤ) (m d : ℕ) : ℤ :=
  let y2 := if m ≤ 2 then y - 1 else y
  let era := (if 0 ≤ y2 then y2 else y2 - 399) / 400
  let yoe := y2 - era * 400
  let doy := (153 * (if 2 < m then (m : ℤ) - 3 else (m : ℤ) + 9) + 2) / 5 + (d : ℤ) - 1
  let doe := yoe * 365 + yoe / 4 - yoe / 100 + doy
  era * 146097 + doe - 719468

/-- The POSIX timestamp of a datetime (aware datetimes shifted by their
offset; for the naive-naive subtraction the `getD 0` contributes nothing). -/
def toPosixSeconds (dt : PyDateTime) : ℚ :=
  ((daysFromCivil dt.year dt.month dt.day * 86400
    + (dt.hour : ℤ) * 3600 + (dt.minute : ℤ) * 60 + (dt.second : ℤ)
    - dt.utcoffset_minutes.getD 0 * 60 : ℤ) : ℚ)
  + (dt.microsecond : ℚ) / 1000000

/-- Python datetime subtraction in seconds: raises `TypeError` when exactly
one operand is aware. -/
def pySubSeconds (a b : PyDateTime) : Except String ℚ :=
  if a.utcoffset_minutes.isSome ≠ b.utcoffset_minutes.isSome then
    Except.error "TypeError: cannot subtract offset-naive and offset-aware datetimes"
  else Except.ok (toPosixSeconds a - toPosixSeconds b)

/-- The parse cascade of `format_time_ago`: ISO first (after the
`'Z' → '+00:00'` rewrite), then the two strptime patterns, then give up. -/
def formatTimeAgoParse (timestamp : String) : Option PyDateTime :=
  match fromisoformatL (replaceZ timestamp.toList) with
  | some dt => some dt
  | none =>
      match strptimeMicro timestamp.toList with
      | some dt => some dt
      | none => strptimeSeconds timestamp.toList

/-- `utils.format_time_ago` on a string input: parse (never raising, with
the `"kürzlich"` fallback), then `now - dt` — which raises when the parsed
datetime is aware, since `now` had its tzinfo stripped — then the
bucketed relative-time formatting. -/
def formatTimeAgo (now_utc : PyDateTime) (timestamp : String) : Except String String :=
  match formatTimeAgoParse timestamp with
  | none => Except.ok "kürzlich"
  | some dt =>
      let now := { now_utc with utcoffset_minutes := none }
      match pySubSeconds now dt with
      | Except.error e => Except.error e
      | Except.ok diff =>
          if diff < 60 then Except.ok "gerade eben"
          else if diff < 3600 then
            Except.ok ("vor " ++ toString (pyInt (diff / 60)) ++ " Min.")
          else if diff < 86400 then
            Except.ok ("vor " ++ toString (pyInt (diff / 3600)) ++ " Std.")
          else Except.ok ("vor " ++ toString (pyInt (diff / 86400)) ++ " Tg.")

/-- The property C7 asserts: `format_time_ago` never raises on any string. -/
def formatTimeAgoNeverRaisesClaim : Prop :=
  ∀ (now_utc : PyDateTime) (timestamp : String) (e : String),
    formatTimeAgo now_utc timestamp ≠ Except.error e

/-- A concrete `datetime.now(timezone.utc)`. -/
def nowW : PyDateTime := ⟨2024, 1, 2, 12, 0, 0, 0, some 0⟩

theorem pyInt_nonneg {x : ℚ} (h : 0 ≤ x) : 0 ≤ pyInt x := by
  unfold pyInt
  rw [if_pos h]
  exact Int.floor_nonneg.mpr h

theorem pyInt_le {x : ℚ} {b : ℤ} (h0 : 0 ≤ x) (h : x ≤ (b : ℚ)) : pyInt x ≤ b := by
  unfold pyInt
  rw [if_pos h0]
  have hm : ⌊x⌋ ≤ ⌊(b : ℚ)⌋ := Int.floor_mono h
  simpa using hm

theorem updateNormalMetrics_invariant (tf wf : ℚ) (d : NormalDraws) (s : SimState)
    (hinv : 0 ≤ s.inventory_risk_count) :
    metricInvariant (updateNormalMetrics tf wf d s) := by
  unfold updateNormalMetrics metricInvariant
  dsimp only
  refine ⟨?_, ?_, ?_, ?_, ?_, ?_, ?_, ?_, ?_, ?_, hinv⟩
  · simp only [le_max_iff]; left; norm_num
  · exact le_trans (max_le_max le_rfl (min_le_left _ _)) (by norm_num)
  · simp only [le_max_iff]; left; norm_num
  · exact le_trans (max_le_max le_rfl (min_le_left _ _)) (by norm_num)
  · simp only [le_max_iff]; left; norm_num
  · exact le_trans (max_le_max le_rfl (min_le_left _ _)) (by norm_num)
  · exact le_max_left 0 _
  · simp only [le_max_iff]; left; norm_num
  · simp only [le_max_iff]; left; norm_num
  · exact le_max_left 0 _

theorem updateNormalMetrics_ed_load_bounds (tf wf : ℚ) (d : NormalDraws) (s : SimState) :
    20 ≤ (updateNormalMetrics tf wf d s).ed_load ∧
    (updateNormalMetrics tf wf d s).ed_load ≤ 95 := by
  unfold updateNormalMetrics
  constructor
  · exact le_max_left 20 _
  · exact max_le (by norm_num) (min_le_left _ _)

/-! ## Event engine -/

theorem countType_append_other {e : ActiveEvent} {t : EventType} (h : e.type ≠ t)
    (l : List ActiveEvent) : countType (l ++ [e]) t = countType l t := by
  unfold countType
  rw [List.filter_append]
  simp [h]

theorem countType_append_self {e : ActiveEvent} {t : EventType} (h : e.type = t)
    (l : List ActiveEvent) : countType (l ++ [e]) t = countType l t + 1 := by
  unfold countType
  rw [List.filter_append]
  simp [h]

theorem countType_eq_zero_of_notMem {events : List ActiveEvent} {t : EventType}
    (h : t ∉ events.map ActiveEvent.type) : countType events t = 0 := by
  unfold countType
  rw [List.length_eq_zero, List.filter_eq_nil_iff]
  intro e he
  simp only [decide_eq_true_eq]
  intro het
  exact h (List.mem_map.mpr ⟨e, he, het⟩)

theorem simulatePatientArrivals_invariant (d : ArrivalDraws) (s : SimState)
    (hd : d.inRange) (hs : metricInvariant s) :
    metricInvariant (simulatePatientArrivals d s) := by
  obtain ⟨hb1, hb2, hw1, hw2⟩ := hd
  obtain ⟨e0, e1, st0, st1, o0, o1, w0, b0, r0, t0, i0⟩ := hs
  have hwq : (0 : ℚ) ≤ (s.waiting_count : ℚ) := by exact_mod_cast w0
  have hed0 : (0 : ℚ) ≤ min 95 (s.ed_load + d.ed_bump) := le_min (by norm_num) (by linarith)
  have hed1 : min (95 : ℚ) (s.ed_load + d.ed_bump) ≤ 100 :=
    (min_le_left _ _).trans (by norm_num)
  have hw : (0 : ℤ) ≤ max 0 (pyInt ((s.waiting_count : ℚ) + d.wait_bump)) := le_max_left 0 _
  unfold simulatePatientArrivals metricInvariant
  dsimp only
  split_ifs with h1 h2 h3
  · exact ⟨hed0, hed1, st0, st1, o0, o1, hw, le_max_left 0 _, r0, t0, i0⟩
  · exact ⟨e0, e1, st0, st1, o0, o1, w0, le_max_left 0 _, r0, t0, i0⟩
  · exact ⟨hed0, hed1, st0, st1, o0, o1, hw, b0, r0, t0, i0⟩
  · exact ⟨e0, e1, st0, st1, o0, o1, w0, b0, r0, t0, i0⟩
  · exact ⟨e0, e1, st0, st1, o0, o1, w0, b0, r0, t0, i0⟩

theorem simulatePatientArrivals_edBand (d : ArrivalDraws) (s : SimState)
    (hd : d.inRange) (hs : edBand s) : edBand (simulatePatientArrivals d s) := by
  obtain ⟨hb1, hb2, hw1, hw2⟩ := hd
  obtain ⟨he1, he2⟩ := hs
  have h0 : (20 : ℚ) ≤ min 95 (s.ed_load + d.ed_bump) := le_min (by norm_num) (by linarith)
  have h1 : min (95 : ℚ) (s.ed_load + d.ed_bump) ≤ 98 := (min_le_left _ _).trans (by norm_num)
  unfold simulatePatientArrivals edBand
  dsimp only
  split_ifs with hc1 hc2 hc3
  · exact ⟨h0, h1⟩
  · exact ⟨he1, he2⟩
  · exact ⟨h0, h1⟩
  · exact ⟨he1, he2⟩
  · exact ⟨he1, he2⟩

theorem dischargeApply_invariant (dept : String) (d : DischargeDraws) (s : SimState)
    (hd : d.inRange) (hs : metricInvariant s) :
    metricInvariant (dischargeApply dept d s) := by
  obtain ⟨hd1, hd2⟩ := hd
  obtain ⟨e0, e1, st0, st1, o0, o1, w0, b0, r0, t0, i0⟩ := hs
  have hbed : (0 : ℤ) ≤ min 100 (s.beds_free + 1) := le_min (by norm_num) (by omega)
  unfold dischargeApply metricInvariant
  dsimp only
  split_ifs with h1
  · exact ⟨(le_max_left 20 _).trans' (by norm_num), max_le (by norm_num) (by linarith),
      st0, st1, o0, o1, le_max_left 0 _, hbed, r0, t0, i0⟩
  · exact ⟨e0, e1, st0, st1, o0, o1, w0, hbed, r0, t0, i0⟩

theorem dischargeApply_edBand (dept : String) (d : DischargeDraws) (s : SimState)
    (hd : d.inRange) (hs : edBand s) : edBand (dischargeApply dept d s) := by
  obtain ⟨hd1, hd2⟩ := hd
  obtain ⟨he1, he2⟩ := hs
  unfold dischargeApply edBand
  dsimp only
  split_ifs with h1
  · exact ⟨le_max_left 20 _, max_le (by norm_num) (by linarith)⟩
  · exact ⟨he1, he2⟩

theorem simulatePatientDischarge_invariant (hour : ℕ) (d : DischargeDraws) (s : SimState)
    (hd : d.inRange) (hs : metricInvariant s) :
    metricInvariant (simulatePatientDischarge hour d s).2 := by
  unfold simulatePatientDischarge
  cases h : dischargeDepartment hour d with
  | none => exact hs
  | some dept => exact dischargeApply_invariant dept d s hd hs

theorem simulatePatientDischarge_edBand (hour : ℕ) (d : DischargeDraws) (s : SimState)
    (hd : d.inRange) (hs : edBand s) : edBand (simulatePatientDischarge hour d s).2 := by
  unfold simulatePatientDischarge
  cases h : dischargeDepartment hour d with
  | none => exact hs
  | some dept => exact dischargeApply_edBand dept d s hd hs

theorem generateTransports_invariant (depts : List String) (rolls : List Bool)
    (s : SimState) (hs : metricInvariant s) :
    metricInvariant (generateTransports depts rolls s) := by
  unfold generateTransports
  generalize depts.zip rolls = l
  induction l generalizing s with
  | nil => exact hs
  | cons p rest ih =>
      simp only [List.foldl_cons]
      apply ih
      by_cases hp : p.2 <;> simp only [hp, if_true, if_false, ite_true, ite_false]
      · obtain ⟨e0, e1, st0, st1, o0, o1, w0, b0, r0, t0, i0⟩ := hs
        exact ⟨e0, e1, st0, st1, o0, o1, w0, b0, r0,
          le_min (by norm_num) (by omega), i0⟩
      · exact hs

theorem generateTransports_ed_load (depts : List String) (rolls : List Bool)
    (s : SimState) : (generateTransports depts rolls s).ed_load = s.ed_load := by
  unfold generateTransports
  generalize depts.zip rolls = l
  induction l generalizing s with
  | nil => rfl
  | cons p rest ih =>
      simp only [List.foldl_cons]
      rw [ih]
      by_cases hp : p.2 <;> simp [hp]

theorem generateTransports_edBand (depts : List String) (rolls : List Bool)
    (s : SimState) (hs : edBand s) : edBand (generateTransports depts rolls s) := by
  unfold edBand at hs ⊢
  rw [generateTransports_ed_load]
  exact hs

theorem applyEventEffect_invariant (e : ActiveEvent) (s : SimState)
    (he : 1 ≤ e.intensity.getD 1.5 ∧ 1 ≤ e.intensity.getD 2.5)
    (hs : metricInvariant s) : metricInvariant (applyEventEffect e s) := by
  obtain ⟨hi1, hi2⟩ := he
  obtain ⟨e0, e1, st0, st1, o0, o1, w0, b0, r0, t0, i0⟩ := hs
  have hwq : (0 : ℚ) ≤ (s.waiting_count : ℚ) := by exact_mod_cast w0
  have hbq : (0 : ℚ) ≤ (s.beds_free : ℚ) := by exact_mod_cast b0
  have hst : (0 : ℚ) ≤ min 95 (s.staff_load * 1.2) ∧ min (95 : ℚ) (s.staff_load * 1.2) ≤ 100 :=
    ⟨le_min (by norm_num) (by nlinarith), (min_le_left _ _).trans (by norm_num)⟩
  unfold applyEventEffect
  cases e.type with
  | surge =>
      exact ⟨le_min (by norm_num) (by nlinarith), (min_le_left _ _).trans (by norm_num),
        hst.1, hst.2, o0, o1, pyInt_nonneg (by nlinarith), b0, r0, t0, i0⟩
  | equipment_failure =>
      dsimp only
      split_ifs with h1 h2
      · exact ⟨le_min (by norm_num) (by nlinarith), (min_le_left _ _).trans (by norm_num),
          st0, st1, o0, o1, w0, b0, r0, t0, i0⟩
      · exact ⟨e0, e1, st0, st1, o0, o1, w0, le_max_left 0 _, r0, t0, i0⟩
      · exact ⟨e0, e1, st0, st1, o0, o1, w0, b0, r0, t0, i0⟩
  | staffing_shortage =>
      exact ⟨le_min (by norm_num) (by nlinarith), (min_le_left _ _).trans (by norm_num),
        le_min (by norm_num) (by nlinarith), (min_le_left _ _).trans (by norm_num),
        o0, o1, w0, b0, r0, t0, i0⟩
  | manv =>
      exact ⟨le_min (by norm_num) (by nlinarith), (min_le_left _ _).trans (by norm_num),
        le_min (by norm_num) (by nlinarith), (min_le_left _ _).trans (by norm_num),
        o0, o1, pyInt_nonneg (by nlinarith), le_max_left 0 _, r0, t0, i0⟩

theorem applyEventEffect_edBand (e : ActiveEvent) (s : SimState)
    (he : 1 ≤ e.intensity.getD 1.5 ∧ 1 ≤ e.intensity.getD 2.5)
    (hs : edBand s) : edBand (applyEventEffect e s) := by
  obtain ⟨hi1, hi2⟩ := he
  obtain ⟨he1, he2⟩ := hs
  have h0 : (0 : ℚ) ≤ s.ed_load := by linarith
  unfold applyEventEffect
  cases e.type with
  | surge =>
      refine ⟨le_min (by norm_num) ?_, (min_le_left _ _).trans (by norm_num)⟩
      calc (20 : ℚ) ≤ s.ed_load := he1
        _ ≤ s.ed_load * (e.intensity.getD 1.5) := le_mul_of_one_le_right h0 hi1
  | equipment_failure =>
      dsimp only
      split_ifs with h1 h2
      · refine ⟨le_min (by norm_num) ?_, (min_le_left _ _).trans (by norm_num)⟩
        nlinarith
      · exact ⟨he1, he2⟩
      · exact ⟨he1, he2⟩
  | staffing_shortage =>
      refine ⟨le_min (by norm_num) ?_, (min_le_left _ _).trans (by norm_num)⟩
      nlinarith
  | manv =>
      refine ⟨le_min (by norm_num) ?_, (min_le_left _ _).trans (by norm_num)⟩
      calc (20 : ℚ) ≤ s.ed_load := he1
        _ ≤ s.ed_load * (e.intensity.getD 2.5) := le_mul_of_one_le_right h0 hi2

theorem foldlEvents_invariant (now : ℚ) :
    ∀ (events : List ActiveEvent) (s : SimState), EventsWF events → metricInvariant s →
    metricInvariant (events.foldl
      (fun acc e => if eventRemaining now e ≤ 0 then acc else applyEventEffect e acc) s) := by
  intro events
  induction events with
  | nil => intro s _ hs; exact hs
  | cons e rest ih =>
      intro s hwf hs
      simp only [List.foldl_cons]
      apply ih
      · exact fun x hx => hwf x (List.mem_cons_of_mem e hx)
      · split_ifs with h1
        · exact hs
        · exact applyEventEffect_invariant e s (hwf e (List.mem_cons_self e rest)) hs

theorem foldlEvents_edBand (now : ℚ) :
    ∀ (events : List ActiveEvent) (s : SimState), EventsWF events → edBand s →
    edBand (events.foldl
      (fun acc e => if eventRemaining now e ≤ 0 then acc else applyEventEffect e acc) s) := by
  intro events
  induction events with
  | nil => intro s _ hs; exact hs
  | cons e rest ih =>
      intro s hwf hs
      simp only [List.foldl_cons]
      apply ih
      · exact fun x hx => hwf x (List.mem_cons_of_mem e hx)
      · split_ifs with h1
        · exact hs
        · exact applyEventEffect_edBand e s (hwf e (List.mem_cons_self e rest)) hs

theorem updateActiveEvents_invariant (now : ℚ) (events : List ActiveEvent) (s : SimState)
    (hwf : EventsWF events) (hs : metricInvariant s) :
    metricInvariant (updateActiveEvents now events s).2 := by
  unfold updateActiveEvents
  dsimp only
  exact foldlEvents_invariant now events s hwf hs

theorem updateActiveEvents_edBand (now : ℚ) (events : List ActiveEvent) (s : SimState)
    (hwf : EventsWF events) (hs : edBand s) :
    edBand (updateActiveEvents now events s).2 := by
  unfold updateActiveEvents
  dsimp only
  exact foldlEvents_edBand now events s hwf hs

theorem eventsWF_append {l : List ActiveEvent} {e : ActiveEvent} (hl : EventsWF l)
    (he : 1 ≤ e.intensity.getD 1.5 ∧ 1 ≤ e.intensity.getD 2.5) : EventsWF (l ++ [e]) := by
  intro x hx
  rcases List.mem_append.mp hx with h | h
  · exact hl x h
  · rw [List.mem_singleton.mp h]
    exact he

theorem triggerSurgeEvent_wf (now : ℚ) (d : TriggerDraws) (hd : d.inRange) :
    1 ≤ (triggerSurgeEvent now d).intensity.getD 1.5 ∧
    1 ≤ (triggerSurgeEvent now d).intensity.getD 2.5 := by
  obtain ⟨h1, _, h2, _⟩ := hd
  simp only [triggerSurgeEvent, Option.getD_some]
  constructor <;> linarith

theorem triggerEquipmentFailure_wf (now : ℚ) (d : TriggerDraws) :
    1 ≤ (triggerEquipmentFailure now d).intensity.getD 1.5 ∧
    1 ≤ (triggerEquipmentFailure now d).intensity.getD 2.5 := by
  simp only [triggerEquipmentFailure, Option.getD_none]
  constructor <;> norm_num

theorem triggerStaffingShortage_wf (now : ℚ) (d : TriggerDraws) :
    1 ≤ (triggerStaffingShortage now d).intensity.getD 1.5 ∧
    1 ≤ (triggerStaffingShortage now d).intensity.getD 2.5 := by
  simp only [triggerStaffingShortage, Option.getD_none]
  constructor <;> norm_num

theorem triggerManvEvent_wf (now : ℚ) (d : TriggerDraws) (hd : d.inRange) :
    1 ≤ (triggerManvEvent now d).intensity.getD 1.5 ∧
    1 ≤ (triggerManvEvent now d).intensity.getD 2.5 := by
  obtain ⟨_, _, _, _, _, _, _, _, _, _, h1, h2⟩ := hd
  simp only [triggerManvEvent, Option.getD_some]
  constructor <;> linarith

theorem checkAndTriggerEvents_wf (now : ℚ) (d : TriggerDraws) (events : List ActiveEvent)
    (hd : d.inRange) (hwf : EventsWF events) :
    EventsWF (checkAndTriggerEvents now d events) := by
  unfold checkAndTriggerEvents
  dsimp only
  split_ifs <;>
    repeat
      first
        | exact hwf
        | exact triggerSurgeEvent_wf now d hd
        | exact triggerEquipmentFailure_wf now d
        | exact triggerStaffingShortage_wf now d
        | exact triggerManvEvent_wf now d hd
        | refine eventsWF_append ?_ ?_

theorem applyRecommendationEffect_invariant (eff : String) (s : SimState)
    (hs : metricInvariant s) : metricInvariant (applyRecommendationEffect eff s) := by
  obtain ⟨e0, e1, st0, st1, o0, o1, w0, b0, r0, t0, i0⟩ := hs
  unfold applyRecommendationEffect
  split_ifs with h1 h2 h3
  · exact ⟨(le_max_left 20 _).trans' (by norm_num), max_le (by norm_num) (by linarith),
      le_min (by norm_num) (by linarith), (min_le_left _ _).trans (by norm_num),
      o0, o1, le_max_left 0 _, b0, r0, t0, i0⟩
  · exact ⟨(le_max_left 20 _).trans' (by norm_num), max_le (by norm_num) (by linarith),
      st0, st1, o0, o1, w0, by dsimp only; omega, r0, t0, i0⟩
  · exact ⟨e0, e1, st0, st1, o0, o1, w0, b0, by dsimp only; omega, t0, i0⟩
  · exact ⟨e0, e1, st0, st1, o0, o1, w0, b0, r0, t0, i0⟩

theorem applyRecommendationEffect_edBand (eff : String) (s : SimState)
    (hs : edBand s) : edBand (applyRecommendationEffect eff s) := by
  obtain ⟨he1, he2⟩ := hs
  unfold applyRecommendationEffect
  split_ifs with h1 h2 h3
  · exact ⟨le_max_left 20 _, max_le (by norm_num) (by linarith)⟩
  · exact ⟨le_max_left 20 _, max_le (by norm_num) (by linarith)⟩
  · exact ⟨he1, he2⟩
  · exact ⟨he1, he2⟩

theorem updateTick_invariant (inp : TickInputs) (events : List ActiveEvent) (s : SimState)
    (hr : inp.inRange) (hwf : EventsWF events) (hinv : 0 ≤ s.inventory_risk_count) :
    metricInvariant (updateTick inp events s).2 := by
  obtain ⟨hn, ha, hd1, hd2, hd3, ht⟩ := hr
  unfold updateTick
  dsimp only
  apply updateActiveEvents_invariant
  · split_ifs with hdemo
    · exact checkAndTriggerEvents_wf inp.now inp.trigger events ht hwf
    · exact hwf
  · apply generateTransports_invariant
    apply simulatePatientDischarge_invariant _ _ _ hd3
    apply simulatePatientDischarge_invariant _ _ _ hd2
    apply simulatePatientDischarge_invariant _ _ _ hd1
    apply simulatePatientArrivals_invariant _ _ ha
    exact updateNormalMetrics_invariant _ _ _ _ hinv

theorem updateTick_edBand (inp : TickInputs) (events : List ActiveEvent) (s : SimState)
    (hr : inp.inRange) (hwf : EventsWF events) :
    edBand (updateTick inp events s).2 := by
  obtain ⟨hn, ha, hd1, hd2, hd3, ht⟩ := hr
  unfold updateTick
  dsimp only
  apply updateActiveEvents_edBand
  · split_ifs with hdemo
    · exact checkAndTriggerEvents_wf inp.now inp.trigger events ht hwf
    · exact hwf
  · apply generateTransports_edBand
    apply simulatePatientDischarge_edBand _ _ _ hd3
    apply simulatePatientDischarge_edBand _ _ _ hd2
    apply simulatePatientDischarge_edBand _ _ _ hd1
    apply simulatePatientArrivals_edBand _ _ ha
    have hb := updateNormalMetrics_ed_load_bounds (timeFactor inp.hour)
      (weekdayFactor inp.weekday) inp.normal s
    exact ⟨hb.1, hb.2.trans (by norm_num)⟩

/-! ## Claim theorems -/

/-- C2: after every tick, and after every recommendation effect, all
percentage metrics lie in [0,100] and all count metrics are non-negative
(integrality is the ℤ typing of the count fields, which mirrors the
`int()` casts on every write in the source). -/
theorem claim_C2_metric_ranges (inp : TickInputs) (events : List ActiveEvent)
    (s : SimState) (eff : String)
    (hr : inp.inRange) (hwf : EventsWF events) (hs : metricInvariant s) :
    metricInvariant (updateTick inp events s).2 ∧
    metricInvariant (applyRecommendationEffect eff s) := by
  refine ⟨updateTick_invariant inp events s hr hwf ?_,
    applyRecommendationEffect_invariant eff s hs⟩
  obtain ⟨_, _, _, _, _, _, _, _, _, _, h⟩ := hs
  exact h

theorem claim_C2_metric_ranges_witness :
    metricInvariant (updateTick tickInputs0 [] initialState).2 ∧
    metricInvariant (applyRecommendationEffect "open_overflow_beds" initialState) :=
  claim_C2_metric_ranges tickInputs0 [] initialState "open_overflow_beds"
    (by refine ⟨?_, ?_, ?_, ?_, ?_, ?_⟩ <;>
        norm_num [tickInputs0, NormalDraws.inRange, ArrivalDraws.inRange,
          DischargeDraws.inRange, TriggerDraws.inRange])
    (by intro x hx; exact absurd hx (List.not_mem_nil x))
    (by norm_num [metricInvariant, initialState])

/-- C10: `ed_load` stays in the tight band [20, 98] under every operation:
the initial state is in band, `_update_normal_metrics` clamps into
[20, 95], every tick (arrivals, discharges, transports, event effects)
preserves the band, and so does every recommendation effect; hence
`ed_load` never reaches 0 or 100. -/
theorem claim_C10_ed_load_band :
    edBand initialState ∧
    (∀ (tf wf : ℚ) (d : NormalDraws) (s : SimState),
      20 ≤ (updateNormalMetrics tf wf d s).ed_load ∧
      (updateNormalMetrics tf wf d s).ed_load ≤ 95) ∧
    (∀ (inp : TickInputs) (events : List ActiveEvent) (s : SimState),
      inp.inRange → EventsWF events → edBand (updateTick inp events s).2) ∧
    (∀ (eff : String) (s : SimState), edBand s →
      edBand (applyRecommendationEffect eff s)) := by
  refine ⟨by norm_num [edBand, initialState], updateNormalMetrics_ed_load_bounds,
    ?_, applyRecommendationEffect_edBand⟩
  intro inp events s hr hwf
  exact updateTick_edBand inp events s hr hwf

theorem claim_C10_ed_load_band_witness :
    edBand (updateTick tickInputs0 [] initialState).2 ∧
    edBand (applyRecommendationEffect "staffing_reassignment" initialState) :=
  ⟨claim_C10_ed_load_band.2.2.1 tickInputs0 [] initialState
    (by refine ⟨?_, ?_, ?_, ?_, ?_, ?_⟩ <;>
        norm_num [tickInputs0, NormalDraws.inRange, ArrivalDraws.inRange,
          DischargeDraws.inRange, TriggerDraws.inRange])
    (by intro x hx; exact absurd hx (List.not_mem_nil x)),
   claim_C10_ed_load_band.2.2.2 "staffing_reassignment" initialState
    (by norm_num [edBand, initialState])⟩

theorem triggerSurgeEvent_type (now : ℚ) (d : TriggerDraws) :
    (triggerSurgeEvent now d).type = EventType.surge := rfl

theorem triggerEquipmentFailure_type (now : ℚ) (d : TriggerDraws) :
    (triggerEquipmentFailure now d).type = EventType.equipment_failure := rfl

theorem triggerStaffingShortage_type (now : ℚ) (d : TriggerDraws) :
    (triggerStaffingShortage now d).type = EventType.staffing_shortage := rfl

theorem triggerManvEvent_type (now : ℚ) (d : TriggerDraws) :
    (triggerManvEvent now d).type = EventType.manv := rfl

/-- C6: the trigger check never stacks a second event of an already active
type — if at most one event of each type is active, the same holds after
`_check_and_trigger_events`. -/
theorem claim_C6_at_most_one_event_per_type (now : ℚ) (d : TriggerDraws)
    (events : List ActiveEvent) (h : ∀ t, countType events t ≤ 1) :
    ∀ t, countType (checkAndTriggerEvents now d events) t ≤ 1 := by
  intro t
  have hz : ∀ t2 : EventType, t2 ∉ events.map ActiveEvent.type →
      countType events t2 = 0 := fun t2 => countType_eq_zero_of_notMem
  unfold checkAndTriggerEvents
  dsimp only
  cases t <;>
    split_ifs with h1 h2 h3 h4 <;>
    (try simp only [countType_append_self, countType_append_other,
      triggerSurgeEvent_type, triggerEquipmentFailure_type,
      triggerStaffingShortage_type, triggerManvEvent_type, ne_eq,
      reduceCtorEq, not_false_eq_true]) <;>
    (first
      | exact h _
      | (have hzz := hz EventType.surge (by tauto); omega)
      | (have hzz := hz EventType.equipment_failure (by tauto); omega)
      | (have hzz := hz EventType.staffing_shortage (by tauto); omega)
      | (have hzz := hz EventType.manv (by tauto); omega))

theorem claim_C6_witness :
    countType (checkAndTriggerEvents 0 triggerDrawsW [surgeEvent0]) EventType.surge ≤ 1 :=
  claim_C6_at_most_one_event_per_type 0 triggerDrawsW [surgeEvent0]
    (by intro t; cases t <;> simp [countType, surgeEvent0]) EventType.surge

/-- C8: turning demo mode off while it was on empties the active-event list
immediately and leaves the metric state untouched. -/
theorem claim_C8_demo_mode_reset (sess : SimSession) (h : sess.demo_mode = true) :
    (setDemoMode false sess).active_events = [] ∧
    (setDemoMode false sess).state = sess.state := by
  unfold setDemoMode
  rw [h]
  simp

theorem claim_C8_demo_mode_reset_witness :
    (setDemoMode false ⟨true, initialState, [surgeEvent0]⟩).active_events = [] ∧
    (setDemoMode false ⟨true, initialState, [surgeEvent0]⟩).state = initialState :=
  claim_C8_demo_mode_reset ⟨true, initialState, [surgeEvent0]⟩ rfl

/-- C3 counterexample: the code applies the full intensity to `ed_load`
while an event is active; it does not weight it by
`max(0, 1 - elapsed/duration)`.  At elapsed = 20 of a 40-minute surge of
intensity 1.5 on `ed_load = 40`, the code yields 60 while the claimed
decayed effect would yield 30. -/
theorem claim_C3_counterexample : ¬ specLinearDecayClaim := by
  intro hclaim
  have h := hclaim { initialState with ed_load := 40 } surgeEvent0 20 rfl
    (by norm_num [surgeEvent0]) (by norm_num [surgeEvent0])
  rw [show ((updateActiveEvents 20 [surgeEvent0]
      { initialState with ed_load := 40 }).2).ed_load = 60 by
    norm_num [updateActiveEvents, applyEventEffect, eventRemaining, surgeEvent0,
      initialState]] at h
  rw [show min (98 : ℚ) (({ initialState with ed_load := 40 } : SimState).ed_load *
      specDecayedFactor surgeEvent0 20) = 30 by
    norm_num [specDecayedFactor, surgeEvent0, initialState]] at h
  norm_num at h

/-- C3 amended: while a surge event is active (`0 ≤ elapsed < duration`) the
full undecayed intensity is applied each tick (`ed_load` becomes
`min(98, ed_load * intensity)`); once `elapsed ≥ duration` the event is
removed and contributes no effect at all, so the magnitude is 0 exactly
from expiry on — but the decay is a step, not linear. -/
theorem claim_C3_amended (s : SimState) (e : ActiveEvent) (now : ℚ)
    (htype : e.type = EventType.surge) :
    (0 ≤ now - e.start_time → now - e.start_time < (e.duration_minutes : ℚ) →
      ((updateActiveEvents now [e] s).2).ed_load =
        min 98 (s.ed_load * e.intensity.getD 1.5) ∧
      (updateActiveEvents now [e] s).1 = [e]) ∧
    ((e.duration_minutes : ℚ) ≤ now - e.start_time →
      (updateActiveEvents now [e] s).2 = s ∧
      (updateActiveEvents now [e] s).1 = []) := by
  obtain ⟨ty, st, du, inten, ad, de⟩ := e
  cases htype
  constructor
  · intro h0 hlt
    dsimp only at h0 hlt
    have hrem : ¬ ((du : ℚ) ≤ now - st) := by linarith
    simp [updateActiveEvents, eventRemaining, applyEventEffect, hrem, hlt]
  · intro hge
    dsimp only at hge
    have hrem : ¬ (now - st < (du : ℚ)) := by linarith
    simp [updateActiveEvents, eventRemaining, applyEventEffect, hge, hrem]

theorem claim_C3_amended_witness :
    (0 : ℚ) ≤ 20 - surgeEvent0.start_time ∧
    20 - surgeEvent0.start_time < (surgeEvent0.duration_minutes : ℚ) ∧
    ((updateActiveEvents 20 [surgeEvent0] initialState).2).ed_load =
      min 98 (initialState.ed_load * surgeEvent0.intensity.getD 1.5) ∧
    (surgeEvent0.duration_minutes : ℚ) ≤ 41 - surgeEvent0.start_time ∧
    (updateActiveEvents 41 [surgeEvent0] initialState).2 = initialState := by
  have h1 := (claim_C3_amended initialState surgeEvent0 20 rfl).1
    (by norm_num [surgeEvent0]) (by norm_num [surgeEvent0])
  have h2 := (claim_C3_amended initialState surgeEvent0 41 rfl).2
    (by norm_num [surgeEvent0])
  exact ⟨by norm_num [surgeEvent0], by norm_num [surgeEvent0], h1.1,
    by norm_num [surgeEvent0], h2.1⟩

/-- C4 counterexample: a tick in which the db save raises is not rolled
back — with the quiet inputs `tickInputs0` the normal metric update has
already changed `ed_load` from 65 to 72, and that mutated state is what
remains after the exception. -/
theorem claim_C4_counterexample : ¬ tickAtomicityClaim := by
  intro hclaim
  have h := hclaim tickInputs0 true [] initialState (by simp [updateCall])
  have h2 : (updateCall tickInputs0 true [] initialState).1.2.ed_load =
      initialState.ed_load := by rw [h]
  rw [show (updateCall tickInputs0 true [] initialState).1.2.ed_load = 72 by
    norm_num [updateCall, updateTick, updateNormalMetrics, simulatePatientArrivals,
      simulatePatientDischarge, dischargeDepartment, generateTransports,
      updateActiveEvents, timeFactor, weekdayFactor, tickInputs0, initialState]] at h2
  norm_num [initialState] at h2

/-- C4 amended: an exception in the metrics save step does propagate out of
`update()` but is caught by `_update_loop`, so no exception escapes the
loop; the state, however, is not restored — it keeps every mutation the
tick applied before the failing call (the full tick's worth, since all
state mutations precede `_save_metrics_to_db`). -/
theorem claim_C4_amended (inp : TickInputs) (events : List ActiveEvent) (s : SimState) :
    (updateCall inp true events s).2 ≠ none ∧
    updateLoopBody inp true events s = updateTick inp events s ∧
    updateLoopBody inp false events s = updateTick inp events s := by
  refine ⟨by simp [updateCall], rfl, rfl⟩

theorem fillTwoFrom_length (sel rem : List String) :
    min 2 (sel.length + rem.length) ≤ (fillTwoFrom sel rem).length ∧
    sel.length ≤ (fillTwoFrom sel rem).length := by
  induction rem generalizing sel with
  | nil =>
      unfold fillTwoFrom
      simp only [List.length_nil]
      omega
  | cons d rest ih =>
      unfold fillTwoFrom
      split_ifs with h
      · have hs := ih (sel ++ [d])
        simp only [List.length_append, List.length_cons, List.length_nil] at hs ⊢
        omega
      · simp only [List.length_cons]
        omega

theorem contains_length_pos (l : List String) (a : String) (h : l.contains a) :
    1 ≤ l.length := by
  cases l with
  | nil => simp [List.contains] at h
  | cons x xs => simp only [List.length_cons]; omega

theorem ensureTwo_length (a b : String) (sel : List String) :
    2 ≤ (ensureTwo a b sel).length := by
  unfold ensureTwo
  dsimp only
  by_cases hc : sel.contains a = true
  · have hpos : 1 ≤ sel.length := contains_length_pos sel a hc
    split_ifs <;> simp_all [List.length_append]
  · split_ifs <;> simp_all [List.length_append]

theorem patientArrivalDepts_two (all_departments : List String) :
    2 ≤ (patientArrivalDepts all_departments).length := by
  unfold patientArrivalDepts
  exact ensureTwo_length _ _ _

theorem bedDemandDepts_two (all_departments : List String) :
    2 ≤ (bedDemandDepts all_departments).length := by
  unfold bedDemandDepts
  exact ensureTwo_length _ _ _

theorem length_flatMap_map {α β γ : Type} (l : List α) (hs : List β) (f : α → β → γ) :
    (l.flatMap (fun a => hs.map (f a))).length = l.length * hs.length := by
  induction l with
  | nil => simp
  | cons a rest ih =>
      simp only [List.flatMap_cons, List.length_append, List.length_map, ih,
        List.length_cons]
      ring

theorem predictPatientArrival_type (db : PredDB) (hour weekday : ℕ) (t : ℚ)
    (dep : String) :
    (predictPatientArrival db hour weekday t dep).prediction_type =
      PredictionType.patient_arrival := rfl

theorem predictBedDemand_type (db : PredDB) (t : ℚ) (dep : String) :
    (predictBedDemand db t dep).prediction_type = PredictionType.bed_demand := by
  unfold predictBedDemand
  cases db.capacity.find? (fun c => c.department == dep) <;> rfl

theorem countPredType_append (l1 l2 : List Prediction) (t : PredictionType) :
    countPredType (l1 ++ l2) t = countPredType l1 t + countPredType l2 t := by
  unfold countPredType
  rw [List.filter_append, List.length_append]

theorem countPredType_eq_length (l : List Prediction) (t : PredictionType)
    (h : ∀ p ∈ l, p.prediction_type = t) : countPredType l t = l.length := by
  unfold countPredType
  rw [List.filter_eq_self.mpr]
  intro p hp
  simp [h p hp]

theorem countPredType_eq_zero (l : List Prediction) (t : PredictionType)
    (h : ∀ p ∈ l, p.prediction_type ≠ t) : countPredType l t = 0 := by
  unfold countPredType
  rw [List.length_eq_zero, List.filter_eq_nil_iff]
  intro p hp
  simp [h p hp]

theorem padPredictions_of_full (db : PredDB) (hour weekday : ℕ)
    (ths : List ℚ) (paD bdD : List String) (preds : List Prediction)
    (h : ¬ preds.length < 12) :
    padPredictions db hour weekday ths paD bdD preds = preds := by
  rw [padPredictions]
  simp [h]

/-- C1: with the default horizons [5, 10, 15], `generate_predictions`
returns exactly 12 records — 6 patient-arrival and 6 bed-demand, the
2 selected departments of each type crossed with the 3 horizons — for
every capacity overview the db returns (empty, one department, or many). -/
theorem claim_C1_prediction_batch_cardinality (db : PredDB) (hour weekday : ℕ) :
    (generatePredictions db hour weekday [5, 10, 15]).length = 12 ∧
    countPredType (generatePredictions db hour weekday [5, 10, 15])
      PredictionType.patient_arrival = 6 ∧
    countPredType (generatePredictions db hour weekday [5, 10, 15])
      PredictionType.bed_demand = 6 ∧
    generatePredictions db hour weekday [5, 10, 15] =
      ((patientArrivalDepts (availableDepartments db)).take 2).flatMap (fun dept =>
        ([5, 10, 15] : List ℚ).map (fun h => predictPatientArrival db hour weekday h dept)) ++
      ((bedDemandDepts (availableDepartments db)).take 2).flatMap (fun dept =>
        ([5, 10, 15] : List ℚ).map (fun h => predictBedDemand db h dept)) := by
  have hfil : (([5, 10, 15] : List ℚ).filter (fun h => decide (h ≤ 15))) = [5, 10, 15] := by
    norm_num [List.filter, decide_eq_true_eq]
  have hpa : ((patientArrivalDepts (availableDepartments db)).take 2).length = 2 := by
    rw [List.length_take]
    have := patientArrivalDepts_two (availableDepartments db)
    omega
  have hbd : ((bedDemandDepts (availableDepartments db)).take 2).length = 2 := by
    rw [List.length_take]
    have := bedDemandDepts_two (availableDepartments db)
    omega
  unfold generatePredictions
  dsimp only
  rw [hfil]
  set paP := ((patientArrivalDepts (availableDepartments db)).take 2).flatMap (fun dept =>
    ([5, 10, 15] : List ℚ).map (fun h => predictPatientArrival db hour weekday h dept))
    with hpaP
  set bdP := ((bedDemandDepts (availableDepartments db)).take 2).flatMap (fun dept =>
    ([5, 10, 15] : List ℚ).map (fun h => predictBedDemand db h dept)) with hbdP
  have hlenpa : paP.length = 6 := by
    rw [hpaP, length_flatMap_map, hpa]
    rfl
  have hlenbd : bdP.length = 6 := by
    rw [hbdP, length_flatMap_map, hbd]
    rfl
  have hmem_pa : ∀ p ∈ paP, p.prediction_type = PredictionType.patient_arrival := by
    intro p hp
    rw [hpaP] at hp
    simp only [List.mem_flatMap, List.mem_map] at hp
    obtain ⟨dept, _, h, _, rfl⟩ := hp
    rfl
  have hmem_bd : ∀ p ∈ bdP, p.prediction_type = PredictionType.bed_demand := by
    intro p hp
    rw [hbdP] at hp
    simp only [List.mem_flatMap, List.mem_map] at hp
    obtain ⟨dept, _, h, _, rfl⟩ := hp
    exact predictBedDemand_type db h dept
  have hfull : (paP ++ bdP).length = 12 := by
    rw [List.length_append, hlenpa, hlenbd]
  rw [padPredictions_of_full _ _ _ _ _ _ _ (by omega)]
  refine ⟨hfull, ?_, ?_, rfl⟩
  · rw [countPredType_append, countPredType_eq_length paP _ hmem_pa,
      countPredType_eq_zero bdP _ (fun p hp => by
        rw [hmem_bd p hp]
        exact fun hx => PredictionType.noConfusion hx), hlenpa]
  · rw [countPredType_append, countPredType_eq_zero paP _ (fun p hp => by
        rw [hmem_pa p hp]
        exact fun hx => PredictionType.noConfusion hx),
      countPredType_eq_length bdP _ hmem_bd, hlenbd]

theorem min_mul_le_of_le_one {a x m : ℚ} (ha : 0 ≤ a) (hx : 0 ≤ x) (hm : m ≤ 1) :
    min a x * m ≤ a := by
  have h1 : (0 : ℚ) ≤ min a x := le_min ha hx
  calc min a x * m ≤ min a x * 1 := mul_le_mul_of_nonneg_left hm h1
    _ = min a x := mul_one _
    _ ≤ a := min_le_left _ _

theorem predictPatientArrival_confidence_bounds (db : PredDB) (hour weekday : ℕ)
    (t : ℚ) (dep : String) (ht : 0 ≤ t) :
    0.3 ≤ (predictPatientArrival db hour weekday t dep).confidence ∧
    (predictPatientArrival db hour weekday t dep).confidence ≤ 0.95 := by
  unfold predictPatientArrival
  dsimp only
  constructor
  · exact le_max_left _ _
  · apply max_le (by norm_num)
    rw [apply_ite Prod.snd]
    dsimp only
    split_ifs with h3
    · apply min_mul_le_of_le_one (by norm_num) (by positivity)
      have h0 : (0 : ℚ) ≤ (t / 60) * 0.2 := by positivity
      linarith
    · norm_num

theorem predictBedDemand_confidence_bounds (db : PredDB) (t : ℚ) (dep : String)
    (ht : 0 ≤ t) :
    0.3 ≤ (predictBedDemand db t dep).confidence ∧
    (predictBedDemand db t dep).confidence ≤ 0.95 := by
  unfold predictBedDemand
  cases hfind : db.capacity.find? (fun c => c.department == dep) with
  | none =>
      constructor <;> norm_num
  | some dc =>
      dsimp only
      constructor
      · exact le_max_left _ _
      · apply max_le (by norm_num)
        rw [apply_ite Prod.snd]
        dsimp only
        split_ifs with h3
        · refine (min_mul_le_of_le_one (by norm_num) (by positivity) ?_).trans (by norm_num)
          have h0 : (0 : ℚ) ≤ (t / 120) * 0.15 := by positivity
          linarith
        · norm_num

/-- C5: for every history, department and non-negative horizon, the
confidence of both predictors lies in [0.3, 0.95]. -/
theorem claim_C5_confidence_bounds (db : PredDB) (hour weekday : ℕ) (t : ℚ)
    (dep1 dep2 : String) (ht : 0 ≤ t) :
    (0.3 ≤ (predictPatientArrival db hour weekday t dep1).confidence ∧
     (predictPatientArrival db hour weekday t dep1).confidence ≤ 0.95) ∧
    (0.3 ≤ (predictBedDemand db t dep2).confidence ∧
     (predictBedDemand db t dep2).confidence ≤ 0.95) :=
  ⟨predictPatientArrival_confidence_bounds db hour weekday t dep1 ht,
   predictBedDemand_confidence_bounds db t dep2 ht⟩

theorem claim_C5_confidence_bounds_witness :
    (0 : ℚ) ≤ 5 ∧
    ((0.3 ≤ (predictPatientArrival predDB0 10 2 5 "ER").confidence ∧
      (predictPatientArrival predDB0 10 2 5 "ER").confidence ≤ 0.95) ∧
     (0.3 ≤ (predictBedDemand predDB0 5 "ICU").confidence ∧
      (predictBedDemand predDB0 5 "ICU").confidence ≤ 0.95)) :=
  ⟨by norm_num, claim_C5_confidence_bounds predDB0 10 2 5 "ER" "ICU" (by norm_num)⟩

/-- C9 counterexample: `duration = random.randint(30, 240)` regardless of
the procedure, so a 240-minute Herz-OP is generated — outside every one of
the spec's keyword buckets (their union is [20, 180]). -/
theorem claim_C9_counterexample : ¬ specOperationDurationClaim := by
  intro hclaim
  have h := hclaim 80 [] opDrawsW
    (by
      refine ⟨by norm_num [opDrawsW], by norm_num [opDrawsW], ?_, ?_, ?_⟩
      · intro hne
        simp [opDrawsW] at hne
      · simp [opDrawsW]
      · intro a ha
        simp [opDrawsW] at ha)
    ⟨"Herz-OP", "Surgery", "completed", 240⟩ []
    (by
      rw [show simulateOperationMaterialConsumption 80 [] opDrawsW =
        some (⟨"Herz-OP", "Surgery", "completed", 240⟩, []) by
          norm_num [simulateOperationMaterialConsumption, opDrawsW, opDepartments,
            List.filter]])
  rcases h with ⟨_, h2⟩ | ⟨_, h2⟩ | ⟨_, h2⟩ | ⟨_, h2⟩ <;> norm_num at h2

/-- C9 amended: every generated operation record has a duration in the
single range [30, 240] independent of the procedure keyword, and the
material consumption picks 1–3 inventory items of the chosen department
(when it has any), consuming 1–5 units each. -/
theorem claim_C9_amended (or_load : ℚ) (inventory : List InventoryItem) (d : OpDraws)
    (hr : d.inRange inventory) :
    ∀ rec cons,
      simulateOperationMaterialConsumption or_load inventory d = some (rec, cons) →
      (30 ≤ rec.duration_minutes ∧ rec.duration_minutes ≤ 240) ∧
      (∀ c ∈ cons, 1 ≤ c.amount ∧ c.amount ≤ 5) ∧
      (¬ (inventory.filter (fun it => it.department == rec.department)).isEmpty →
        1 ≤ cons.length ∧
        cons.length ≤ min 3 (inventory.filter
          (fun it => it.department == rec.department)).length) := by
  obtain ⟨hd1, hd2, hitems, hlen, hamounts⟩ := hr
  intro rec cons hsome
  unfold simulateOperationMaterialConsumption at hsome
  dsimp only at hsome
  split_ifs at hsome with h1 h2
  · rw [Option.some_inj, Prod.mk.injEq] at hsome
    obtain ⟨hrec, hcons⟩ := hsome
    refine ⟨by rw [← hrec]; exact ⟨hd1, hd2⟩, ?_, ?_⟩
    · intro c hc
      rw [← hcons] at hc
      exact absurd hc (List.not_mem_nil c)
    · intro hne
      rw [← hrec] at hne
      dsimp only at hne
      exact absurd h2 hne
  · rw [Option.some_inj, Prod.mk.injEq] at hsome
    obtain ⟨hrec, hcons⟩ := hsome
    have hdept : rec.department = opChosenDepartment d := by
      rw [← hrec]
      exact rfl
    refine ⟨by rw [← hrec]; exact ⟨hd1, hd2⟩, ?_, ?_⟩
    · intro c hc
      rw [← hcons] at hc
      simp only [List.mem_map] at hc
      obtain ⟨⟨p1, p2⟩, hp, rfl⟩ := hc
      exact hamounts p2 (List.of_mem_zip hp).2
    · intro hne
      rw [hdept] at hne
      obtain ⟨hn1, hn2, hn3, _⟩ := hitems hne
      rw [← hcons, hdept]
      simp only [List.length_map, List.length_zip, hlen, hn3, min_self]
      exact ⟨hn1, hn2⟩

theorem claim_C9_amended_witness :
    (30 ≤ opRecW.duration_minutes ∧ opRecW.duration_minutes ≤ 240) ∧
    (∀ c ∈ opConsW, 1 ≤ c.amount ∧ c.amount ≤ 5) ∧
    (¬ ((invW.filter (fun it => it.department == opRecW.department)).isEmpty) →
      1 ≤ opConsW.length ∧
      opConsW.length ≤ min 3 (invW.filter
        (fun it => it.department == opRecW.department)).length) :=
  claim_C9_amended 80 invW opDrawsW2 (by decide) opRecW opConsW
    (by
      rw [show simulateOperationMaterialConsumption 80 invW opDrawsW2 =
          some (opRecW, opConsW) by
        norm_num [simulateOperationMaterialConsumption, opDrawsW2, invW,
          opDepartments, opRecW, opConsW, List.filter]])

/-- C7: the parse cascade itself never raises, but `format_time_ago` as a
whole does: a timezone-aware timestamp string (any stored ISO timestamp
ending in `Z` or carrying `+HH:MM`) parses successfully to an aware
datetime, and the subsequent `now - dt` with the deliberately-naive `now`
raises `TypeError`. -/
theorem claim_C7_format_time_ago_raises :
    formatTimeAgo nowW "2024-01-01T10:00:00Z" =
      Except.error "TypeError: cannot subtract offset-naive and offset-aware datetimes" ∧
    ¬ formatTimeAgoNeverRaisesClaim := by
  have heval : formatTimeAgo nowW "2024-01-01T10:00:00Z" =
      Except.error "TypeError: cannot subtract offset-naive and offset-aware datetimes" := by
    rfl
  exact ⟨heval, fun hclaim => hclaim nowW "2024-01-01T10:00:00Z" _ heval⟩

end HospitalFlow
